import Mathlib

/-!
Shallow embedding of `os_service_types` (files `os_service_types/types.py`
and `os_service_types/service_types.py`) and proofs about its behaviour.

Python dictionaries with string keys are modelled as association lists
`List (String × β)` looked up with `dictGet`; `dict.get(k, d)` is
`(dictGet m k).getD d`.  Python's implicit `Optional[str]` values flowing
through the module (`_normalize_type` may return `None`) are modelled with
`Option String`.  Raised exceptions are modelled with `Except`.
-/

deriving instance DecidableEq for Except

namespace OsServiceTypes

/-- Python `dict` lookup `m[k]` / `m.get(k)` on an association list:
the value at the first matching key, if any. -/
def dictGet {β : Type} (m : List (String × β)) (k : String) : Option β :=
  (m.find? (fun p => p.1 == k)).map (·.2)

/-- `class Service(TypedDict)` from `os_service_types/types.py`:
`aliases` is `NotRequired`, the other three fields are `Required`. -/
structure Service where
  aliases : Option (List String)
  api_reference : String
  project : String
  service_type : String
deriving DecidableEq, Repr

/-- `class ServiceTypes(TypedDict)` from `os_service_types/types.py`:
the dataset structure held by the registry. -/
structure ServiceTypesData where
  all_types_by_service_type : List (String × List String)
  forward : List (String × List String)
  primary_service_by_project : List (String × Service)
  reverse : List (String × String)
  service_types_by_project : List (String × List String)
  services : List Service
  sha : String
  version : String
deriving DecidableEq, Repr

/-- `_normalize_type` from `service_types.py` lines 40-44:
`if not service_type: return None` (so both `None` and `""` give `None`),
otherwise `service_type.replace('_', '-')`.  Since the pattern is the
single character `'_'`, `str.replace` is exactly a character map. -/
def normalizeType : Option String → Option String
  | none => none
  | some s =>
    if s = "" then none
    else some (String.mk (s.data.map (fun c => if c = '_' then '-' else c)))

/-- The warnings emitted through `os_service_types.exc.warn` (the `exc`
module itself only wraps `warnings.warn`); carried as an explicit output so
that the effect of the `warn` flag is visible in the model. -/
inductive UsageWarning where
  | aliasUsage (given : Option String) (official : Option String)
  | unofficialUsage (given : Option String)
deriving DecidableEq, Repr

/-- The `ServiceTypes` registry object: its `_service_types_data` field and
its `_warn` flag (`service_types.py` lines 82-83). -/
structure ServiceTypes where
  data : ServiceTypesData
  warn : Bool
deriving DecidableEq, Repr

namespace ServiceTypes

/-- `_canonical_project_name` from `service_types.py` lines 94-99: raise
`ValueError` on `None`, else `name.rpartition('/')[-1]`, i.e. the part of
the string after the last `'/'` (the whole string when there is none),
computed here by a left fold that restarts at every `'/'`. -/
def canonicalProjectName : Option String → Except String String
  | none => Except.error "Empty project name is not allowed"
  | some n =>
    Except.ok
      (String.mk
        (n.data.foldl (fun acc c => if c = '/' then [] else acc ++ [c]) []))

/-- `get_official_service_data` (lines 147-159): normalize, then linear
search of `services` for an exact `service_type` match; `None` if the
normalized value is `None` (nothing compares equal to it) or unmatched. -/
def getOfficialServiceData (r : ServiceTypes) (service_type : Option String) :
    Option Service :=
  match normalizeType service_type with
  | none => none
  | some t => r.data.services.find? (fun s => s.service_type == t)

/-- `is_official` (lines 172-178). -/
def isOfficial (r : ServiceTypes) (service_type : Option String) : Bool :=
  (r.getOfficialServiceData service_type).isSome

/-- `is_alias` (lines 180-187): normalize, then key membership in
`reverse` (`None` is never a key). -/
def isAlias (r : ServiceTypes) (service_type : Option String) : Bool :=
  match normalizeType service_type with
  | none => false
  | some t => (dictGet r.data.reverse t).isSome

/-- `is_known` (lines 189-195). -/
def isKnown (r : ServiceTypes) (service_type : Option String) : Bool :=
  r.isOfficial service_type || r.isAlias service_type

/-- `get_service_type` (lines 239-261) with its warning side channel made
explicit: first component is the returned value, second the warnings that
`exc.warn` would emit (only when `self._warn` is set). -/
def getServiceTypeCore (r : ServiceTypes) (service_type : Option String)
    (permissive : Bool) : Option String × List UsageWarning :=
  let st := normalizeType service_type
  if r.isOfficial st then (st, [])
  else
    let official := st.bind (dictGet r.data.reverse)
    if permissive && official.isNone then
      (st, if r.warn then [UsageWarning.unofficialUsage st] else [])
    else
      (official, if r.warn then [UsageWarning.aliasUsage st official] else [])

/-- The value returned by `get_service_type`. -/
def getServiceType (r : ServiceTypes) (service_type : Option String)
    (permissive : Bool := false) : Option String :=
  (r.getServiceTypeCore service_type permissive).1

/-- `get_service_data` (lines 161-170): `if not official_service_type:
return None` is false for `None` and for the empty string. -/
def getServiceData (r : ServiceTypes) (service_type : Option String) :
    Option Service :=
  match r.getServiceType service_type false with
  | none => none
  | some official =>
    if official = "" then none
    else r.getOfficialServiceData (some official)

/-- `get_aliases` (lines 230-237): normalize, then
`forward.get(service_type, [])`. -/
def getAliases (r : ServiceTypes) (service_type : Option String) :
    List String :=
  match normalizeType service_type with
  | none => []
  | some t => (dictGet r.data.forward t).getD []

/-- `is_match` (lines 197-228).  `requested` and `found` are `str`
arguments; `requested` is never normalized, while `found` is passed into
`get_aliases` and `get_service_type`, which normalize it. -/
def isMatch (r : ServiceTypes) (requested found : String) : Bool :=
  if requested = found then true
  else if (r.getAliases (some found)).contains requested then true
  else if r.getServiceType (some found) false == some requested then true
  else false

/-- `get_all_types` (lines 263-274): on unknown input return the singleton
of the normalized value (which is the Python value `None` when the input
normalized to `None`, hence the `Option String` elements); on known input,
`self.all_types_by_service_type[official]` is a raising `dict` subscript
and the preceding `assert` can fail, both modelled by the outer `Option`. -/
def getAllTypes (r : ServiceTypes) (service_type : Option String) :
    Option (List (Option String)) :=
  let st := normalizeType service_type
  if !(r.isKnown st) then some [st]
  else
    match r.getServiceType st false with
    | none => none
    | some official =>
      (dictGet r.data.all_types_by_service_type official).map
        (fun l => l.map some)

/-- `get_project_name` (lines 276-286): `if service:` is dict-truthiness;
a `Service` record always has required keys, hence is never falsy. -/
def getProjectName (r : ServiceTypes) (service_type : Option String) :
    Option String :=
  (r.getServiceData (normalizeType service_type)).map (·.project)

/-- `get_service_data_for_project` (lines 288-300): canonicalize (raising
`ValueError` on `None`), then `primary_service_by_project.get(...)`. -/
def getServiceDataForProject (r : ServiceTypes)
    (project_name : Option String) : Except String (Option Service) :=
  match canonicalProjectName project_name with
  | Except.error e => Except.error e
  | Except.ok p => Except.ok (dictGet r.data.primary_service_by_project p)

/-- `get_all_service_data_for_project` (lines 302-320), exactly as written
in the source: the raw `project_name` is used as the lookup key — there is
no call to `_canonical_project_name` — so a `None` argument just misses in
`service_types_by_project.get(project_name, [])` and yields `[]`, and a
namespaced name is looked up verbatim.  Entries whose `get_service_data`
is falsy (absent) are skipped. -/
def getAllServiceDataForProject (r : ServiceTypes)
    (project_name : Option String) : List Service :=
  let types : List String :=
    match project_name with
    | none => []
    | some p => (dictGet r.data.service_types_by_project p).getD []
  types.filterMap (fun t => r.getServiceData (some t))

end ServiceTypes

/-- Replace the value stored under key `k` of an association list (Python:
assigning through an alias of the stored object updates the entry the
dictionary holds). -/
def dictSet {β : Type} (m : List (String × β)) (k : String) (v : β) :
    List (String × β) :=
  m.map (fun p => if p.1 == k then (p.1, v) else p)

/-- Replace the `project` field of the first service whose `service_type`
is `t` (the entry `services.find?` returns an alias of). -/
def listSetFirstProject : List Service → String → String → List Service
  | [], _, _ => []
  | s :: ss, t, p =>
    if s.service_type == t then { s with project := p } :: ss
    else s :: listSetFirstProject ss t p

namespace ServiceTypes

/-- Effect on the registry of a caller appending `x` in place to the list
returned by `get_aliases` (line 237).  The source returns
`self._service_types_data['forward'].get(service_type, [])`: when the key
is present this is the list object stored in the internal dataset itself
(no `copy.deepcopy`), so the append is visible in the registry's own
`forward` table; only the default `[]` on a miss is a fresh list. -/
def appendToGetAliasesResult (r : ServiceTypes) (service_type : Option String)
    (x : String) : ServiceTypes :=
  match normalizeType service_type with
  | none => r
  | some t =>
    match dictGet r.data.forward t with
    | none => r
    | some l =>
      { r with data := { r.data with forward := dictSet r.data.forward t (l ++ [x]) } }

/-- Effect on the registry of a caller assigning `p` to the `project` key
of the record returned by `get_official_service_data` (line 158).  The
source returns the `service` dict taken straight out of
`self._service_types_data['services']` (no `copy.deepcopy`), so the
assignment lands in the stored record. -/
def setProjectOnOfficialResult (r : ServiceTypes) (service_type : Option String)
    (p : String) : ServiceTypes :=
  match normalizeType service_type with
  | none => r
  | some t =>
    if (r.data.services.find? (fun s => s.service_type == t)).isSome then
      { r with data := { r.data with services := listSetFirstProject r.data.services t p } }
    else r

/-- Effect on the registry of a caller mutating the dict returned by the
`forward` property (line 114), e.g. appending `x` to the list at key `k`.
The property returns `copy.deepcopy(self._service_types_data['forward'])`,
an independent copy, so the caller's mutation never reaches the registry:
the registry state after the mutation is the registry unchanged. -/
def appendToForwardResult (r : ServiceTypes) (_k _x : String) : ServiceTypes :=
  r

/-- Effect on the registry of a caller mutating the list returned by the
`services` property (line 124), e.g. overwriting the `project` field of
the record for `t`.  The property returns a `copy.deepcopy`, so the
registry is unchanged. -/
def setProjectOnServicesResult (r : ServiceTypes) (_t _p : String) :
    ServiceTypes :=
  r

end ServiceTypes

/-- Outcome of `ServiceTypes.__init__` (lines 72-92): `ValueError` when
`only_remote` is requested without a session, `OSError` re-raised when the
fetch fails and `only_remote` is set. -/
inductive ConstructError where
  | valueError
  | osError
deriving DecidableEq, Repr

/-- The externally supplied session, reduced to what `__init__` observes of
it: one fetch of `SERVICE_TYPES_URL` that either yields a decoded dataset
(`response.json()` after a successful `raise_for_status`) or raises an
`OSError` (transport/status failure). -/
inductive Fetch where
  | success (payload : ServiceTypesData)
  | failure
deriving DecidableEq, Repr

/-- `ServiceTypes.__init__` (lines 72-92).  `builtin` stands for
`BUILTIN_DATA` (read from the packaged JSON file, outside this module).
Order as in the source: the `ValueError` check first, then the data is set
to the builtin snapshot, then at most one fetch attempt whose `OSError` is
swallowed unless `only_remote` is set. -/
def mkServiceTypes (session : Option Fetch) (only_remote : Bool)
    (warn : Bool) (builtin : ServiceTypesData) :
    Except ConstructError ServiceTypes :=
  if session.isNone && only_remote then Except.error ConstructError.valueError
  else
    match session with
    | none => Except.ok { data := builtin, warn := warn }
    | some (Fetch.success payload) =>
      Except.ok { data := payload, warn := warn }
    | some Fetch.failure =>
      if only_remote then Except.error ConstructError.osError
      else Except.ok { data := builtin, warn := warn }

/-- A concrete service record: the compute service of project nova. -/
def computeSvc : Service :=
  { aliases := none
    api_reference := "compute-api-ref"
    project := "nova"
    service_type := "compute" }

/-- A concrete service record: the block-storage service of project
cinder, with two historical aliases. -/
def blockStorageSvc : Service :=
  { aliases := some ["volume-v2", "volume-v3"]
    api_reference := "block-storage-api-ref"
    project := "cinder"
    service_type := "block-storage" }

/-- A small concrete dataset shaped like the authority data
(`service-types.json`): two official types, one with two aliases, with the
precomputed indices satisfying the dataset invariants. -/
def sampleData : ServiceTypesData :=
  { all_types_by_service_type :=
      [("compute", ["compute"]),
       ("block-storage", ["block-storage", "volume-v2", "volume-v3"])]
    forward := [("block-storage", ["volume-v2", "volume-v3"])]
    primary_service_by_project :=
      [("nova", computeSvc), ("cinder", blockStorageSvc)]
    reverse := [("volume-v2", "block-storage"), ("volume-v3", "block-storage")]
    service_types_by_project :=
      [("nova", ["compute"]), ("cinder", ["block-storage"])]
    services := [computeSvc, blockStorageSvc]
    sha := "0123abcd"
    version := "2026-10-01T00:00:00+00:00" }

/-- A registry holding `sampleData`, warnings disabled. -/
def sampleR : ServiceTypes := { data := sampleData, warn := false }

/-! ## Helper lemmas -/

theorem dictGet_dictSet {β : Type} {m : List (String × β)} {k : String}
    (v : β) {w : β} (h : dictGet m k = some w) :
    dictGet (dictSet m k v) k = some v := by
  induction m with
  | nil => simp [dictGet] at h
  | cons hd tl ih =>
    cases hk : (hd.1 == k) with
    | true =>
      simp only [dictGet, dictSet, List.map_cons]
      rw [if_pos hk]
      simp [List.find?, hk]
    | false =>
      simp only [dictGet] at h
      simp only [dictGet, dictSet, List.map_cons]
      rw [if_neg (by simp [hk])]
      simp only [List.find?, hk] at h ⊢
      exact ih h

theorem find?_listSetFirstProject {l : List Service} {t : String} (p : String)
    {s : Service} (h : l.find? (fun sv => sv.service_type == t) = some s) :
    (listSetFirstProject l t p).find? (fun sv => sv.service_type == t) =
      some { s with project := p } := by
  induction l with
  | nil => simp at h
  | cons hd tl ih =>
    cases hk : (hd.service_type == t) with
    | true =>
      simp only [List.find?, hk] at h
      have hds : hd = s := by injection h
      subst hds
      unfold listSetFirstProject
      rw [if_pos hk]
      simp [List.find?, hk]
    | false =>
      simp only [List.find?, hk] at h
      unfold listSetFirstProject
      rw [if_neg (by simp [hk])]
      simp only [List.find?, hk]
      exact ih h

theorem isOfficial_none (r : ServiceTypes) : r.isOfficial none = false :=
  rfl

theorem isOfficial_warn (d : ServiceTypesData) (w : Bool) (st : Option String) :
    ServiceTypes.isOfficial ⟨d, w⟩ st = ServiceTypes.isOfficial ⟨d, false⟩ st :=
  rfl

theorem getServiceType_warn (d : ServiceTypesData) (w : Bool)
    (st : Option String) (p : Bool) :
    ServiceTypes.getServiceType ⟨d, w⟩ st p =
      ServiceTypes.getServiceType ⟨d, false⟩ st p := by
  dsimp only [ServiceTypes.getServiceType, ServiceTypes.getServiceTypeCore,
    ServiceTypes.isOfficial, ServiceTypes.getOfficialServiceData]
  split_ifs <;> rfl

theorem getServiceData_warn (d : ServiceTypesData) (w : Bool)
    (st : Option String) :
    ServiceTypes.getServiceData ⟨d, w⟩ st =
      ServiceTypes.getServiceData ⟨d, false⟩ st := by
  dsimp only [ServiceTypes.getServiceData]
  rw [getServiceType_warn]
  rfl

/-! ## Claim theorems -/

/-- C1: the claim says `get_all_service_data_for_project` canonicalizes its
project-name argument before the lookup, so `"openstack/nova"` and `"nova"`
give the same records.  The source never calls `_canonical_project_name`
there: on a dataset where `service_types_by_project` has the key `"nova"`
with the resolvable type `"compute"`, the namespaced form yields `[]` while
the bare name yields the compute record — even though
`_canonical_project_name` would have reduced the former to `"nova"`. -/
theorem c1_no_canonicalization_in_get_all_service_data :
    sampleR.getAllServiceDataForProject (some "openstack/nova") = [] ∧
    sampleR.getAllServiceDataForProject (some "nova") = [computeSvc] ∧
    ServiceTypes.canonicalProjectName (some "openstack/nova") =
      Except.ok "nova" ∧
    sampleR.getServiceData (some "compute") = some computeSvc := by
  decide

/-- C2 counterexample: not every accessor returns an independent deep copy.
`get_aliases` hands out the list stored inside the registry's `forward`
table, so a caller appending `"x"` to the returned list changes what a
subsequent `get_aliases` call returns — refuting the claim at the concrete
registry `sampleR` and type `"block-storage"`. -/
theorem c2_get_aliases_returns_internal_list :
    ¬ ((sampleR.appendToGetAliasesResult (some "block-storage") "x").getAliases
          (some "block-storage") =
        sampleR.getAliases (some "block-storage")) := by
  decide

/-- C2 amended: the property accessors (`forward`, `reverse`, `services`,
`all_types_by_service_type`, `primary_service_by_project`,
`service_types_by_project`) return `copy.deepcopy` results, so caller
mutation of those never reaches the registry; but `get_aliases` and
`get_official_service_data` (hence also `get_service_data`) return the
internal list/record itself, so caller mutation of those is visible in the
registry's subsequent answers. -/
theorem c2_property_accessors_copy_but_get_aliases_does_not
    (r : ServiceTypes) (k x p : String) (st : Option String) (t : String)
    (l : List String) (s : Service)
    (hn : normalizeType st = some t)
    (hl : dictGet r.data.forward t = some l)
    (hs : r.data.services.find? (fun sv => sv.service_type == t) = some s) :
    r.appendToForwardResult k x = r ∧
    r.setProjectOnServicesResult t p = r ∧
    (r.appendToGetAliasesResult st x).getAliases st = l ++ [x] ∧
    (r.setProjectOnOfficialResult st p).getOfficialServiceData st =
      some { s with project := p } := by
  refine ⟨rfl, rfl, ?_, ?_⟩
  · simp only [ServiceTypes.appendToGetAliasesResult, hn, hl]
    simp only [ServiceTypes.getAliases, hn]
    rw [dictGet_dictSet (l ++ [x]) hl]
    rfl
  · simp only [ServiceTypes.setProjectOnOfficialResult, hn, hs,
      Option.isSome_some, if_true]
    simp only [ServiceTypes.getOfficialServiceData, hn]
    exact find?_listSetFirstProject p hs

/-- C2 amended, witness: the amended statement instantiated on `sampleR`
at the official type `"block-storage"`. -/
theorem c2_property_accessors_copy_witness :
    sampleR.appendToForwardResult "block-storage" "x" = sampleR ∧
    sampleR.setProjectOnServicesResult "block-storage" "p" = sampleR ∧
    (sampleR.appendToGetAliasesResult (some "block-storage") "x").getAliases
        (some "block-storage") = ["volume-v2", "volume-v3"] ++ ["x"] ∧
    (sampleR.setProjectOnOfficialResult (some "block-storage")
        "p").getOfficialServiceData (some "block-storage") =
      some { blockStorageSvc with project := "p" } :=
  c2_property_accessors_copy_but_get_aliases_does_not sampleR "block-storage"
    "x" "p" (some "block-storage") "block-storage" ["volume-v2", "volume-v3"]
    blockStorageSvc (by decide) (by decide) (by decide)

/-- C3: the claim (and the docstrings of both methods) says an absent
project name raises `ValueError` in both project-lookup operations.
`get_service_data_for_project` does raise, but
`get_all_service_data_for_project` never calls `_canonical_project_name`:
with `None` it silently returns the empty list instead of raising. -/
theorem c3_absent_project_name_not_always_an_error (r : ServiceTypes) :
    r.getServiceDataForProject none =
      Except.error "Empty project name is not allowed" ∧
    r.getAllServiceDataForProject none = [] :=
  ⟨rfl, rfl⟩

/-- C4: over any registry whose dataset is well formed at the entries in
question (the official type `t` and the aliases in canonical form, the
aliases listed in `forward[t]`, mapped back to `t` by `reverse`, and not
themselves official or keys of `forward`), an alias matches its official
type in both argument orders of `is_match`, while two distinct aliases of
the same official type never match each other. -/
theorem c4_alias_matching_is_official_sided (r : ServiceTypes)
    (t a a1 a2 : String) (al : List String)
    (hT : normalizeType (some t) = some t)
    (hA : normalizeType (some a) = some a)
    (hA2 : normalizeType (some a2) = some a2)
    (hoffT : r.isOfficial (some t) = true)
    (hoffA : r.isOfficial (some a) = false)
    (hoffA1 : r.isOfficial (some a1) = false)
    (hoffA2 : r.isOfficial (some a2) = false)
    (hfwdT : dictGet r.data.forward t = some al)
    (hmemA : a ∈ al) (hmem1 : a1 ∈ al) (hmem2 : a2 ∈ al) (hne12 : a1 ≠ a2)
    (hrevA : dictGet r.data.reverse a = some t)
    (hrevA2 : dictGet r.data.reverse a2 = some t)
    (hfwdA : dictGet r.data.forward a = none)
    (hfwdA2 : dictGet r.data.forward a2 = none) :
    r.isMatch a t = true ∧ r.isMatch t a = true ∧ r.isMatch a1 a2 = false := by
  have hat : a ≠ t := by
    intro hEq
    rw [hEq, hoffT] at hoffA
    exact Bool.noConfusion hoffA
  have ha1t : a1 ≠ t := by
    intro hEq
    rw [hEq, hoffT] at hoffA1
    exact Bool.noConfusion hoffA1
  refine ⟨?_, ?_, ?_⟩
  · simp only [ServiceTypes.isMatch, ServiceTypes.getAliases, hT, hfwdT,
      Option.getD_some]
    rw [if_neg hat, if_pos (List.elem_eq_true_of_mem hmemA)]
  · simp only [ServiceTypes.isMatch, ServiceTypes.getAliases,
      ServiceTypes.getServiceType, ServiceTypes.getServiceTypeCore, hA,
      hfwdA, hoffA, Option.getD_none]
    rw [if_neg (Ne.symm hat)]
    simp [hrevA]
  · simp only [ServiceTypes.isMatch, ServiceTypes.getAliases,
      ServiceTypes.getServiceType, ServiceTypes.getServiceTypeCore, hA2,
      hfwdA2, hoffA2, Option.getD_none]
    rw [if_neg hne12]
    simp [hrevA2]
    exact fun hEq => ha1t hEq.symm

/-- C4, witness: the matching facts instantiated on `sampleR` with the
official type `"block-storage"` and its aliases `"volume-v2"` and
`"volume-v3"`. -/
theorem c4_alias_matching_witness :
    sampleR.isMatch "volume-v2" "block-storage" = true ∧
    sampleR.isMatch "block-storage" "volume-v2" = true ∧
    sampleR.isMatch "volume-v2" "volume-v3" = false :=
  c4_alias_matching_is_official_sided sampleR "block-storage" "volume-v2"
    "volume-v2" "volume-v3" ["volume-v2", "volume-v3"] (by decide) (by decide)
    (by decide) (by decide) (by decide) (by decide) (by decide) (by decide)
    (by decide) (by decide) (by decide) (by decide) (by decide) (by decide)
    (by decide) (by decide)

/-- C5: resolution contract of `get_service_type` in non-permissive mode:
an input whose normalized form is official comes back unchanged (as its
normalized form); a non-official input whose normalized form is a key of
`reverse` resolves to `reverse[normalized]`; anything else — an input that
normalizes to `None`, or one that is neither official nor a `reverse`
key — yields `None`. -/
theorem c5_get_service_type_resolution (r : ServiceTypes)
    (st : Option String) :
    (∀ t : String, normalizeType st = some t →
      r.isOfficial (some t) = true → r.getServiceType st false = some t) ∧
    (∀ t o : String, normalizeType st = some t →
      r.isOfficial (some t) = false → dictGet r.data.reverse t = some o →
      r.getServiceType st false = some o) ∧
    (normalizeType st = none → r.getServiceType st false = none) ∧
    (∀ t : String, normalizeType st = some t →
      r.isOfficial (some t) = false → dictGet r.data.reverse t = none →
      r.getServiceType st false = none) := by
  refine ⟨?_, ?_, ?_, ?_⟩
  · intro t hn hoff
    simp [ServiceTypes.getServiceType, ServiceTypes.getServiceTypeCore, hn,
      hoff]
  · intro t o hn hoff hrev
    simp [ServiceTypes.getServiceType, ServiceTypes.getServiceTypeCore, hn,
      hoff, hrev]
  · intro hn
    simp [ServiceTypes.getServiceType, ServiceTypes.getServiceTypeCore, hn,
      isOfficial_none]
  · intro t hn hoff hrev
    simp [ServiceTypes.getServiceType, ServiceTypes.getServiceTypeCore, hn,
      hoff, hrev]

/-- C5, witness: the three interesting resolution cases on `sampleR`: an
official type comes back unchanged, an alias (queried with underscores, so
normalization matters) resolves to its official type, and an unknown type
yields `None`. -/
theorem c5_get_service_type_resolution_witness :
    sampleR.getServiceType (some "compute") false = some "compute" ∧
    sampleR.getServiceType (some "volume_v2") false = some "block-storage" ∧
    sampleR.getServiceType (some "widget") false = none :=
  ⟨(c5_get_service_type_resolution sampleR (some "compute")).1 "compute"
      (by decide) (by decide),
    (c5_get_service_type_resolution sampleR (some "volume_v2")).2.1
      "volume-v2" "block-storage" (by decide) (by decide) (by decide),
    (c5_get_service_type_resolution sampleR (some "widget")).2.2.2 "widget"
      (by decide) (by decide) (by decide)⟩

/-- C6: the `warn` behaviour flag never alters a returned value: two
registries over the same dataset that differ only in the flag give equal
results for every query operation on every input (the flag only selects
whether the side-channel warning list of `get_service_type` is populated). -/
theorem c6_warn_flag_never_alters_results (d : ServiceTypesData)
    (st pn : Option String) (p : Bool) (req fnd : String) :
    ServiceTypes.getServiceType ⟨d, true⟩ st p =
        ServiceTypes.getServiceType ⟨d, false⟩ st p ∧
    ServiceTypes.getOfficialServiceData ⟨d, true⟩ st =
        ServiceTypes.getOfficialServiceData ⟨d, false⟩ st ∧
    ServiceTypes.getServiceData ⟨d, true⟩ st =
        ServiceTypes.getServiceData ⟨d, false⟩ st ∧
    ServiceTypes.isOfficial ⟨d, true⟩ st =
        ServiceTypes.isOfficial ⟨d, false⟩ st ∧
    ServiceTypes.isAlias ⟨d, true⟩ st = ServiceTypes.isAlias ⟨d, false⟩ st ∧
    ServiceTypes.isKnown ⟨d, true⟩ st = ServiceTypes.isKnown ⟨d, false⟩ st ∧
    ServiceTypes.getAliases ⟨d, true⟩ st =
        ServiceTypes.getAliases ⟨d, false⟩ st ∧
    ServiceTypes.isMatch ⟨d, true⟩ req fnd =
        ServiceTypes.isMatch ⟨d, false⟩ req fnd ∧
    ServiceTypes.getAllTypes ⟨d, true⟩ st =
        ServiceTypes.getAllTypes ⟨d, false⟩ st ∧
    ServiceTypes.getProjectName ⟨d, true⟩ st =
        ServiceTypes.getProjectName ⟨d, false⟩ st ∧
    ServiceTypes.getServiceDataForProject ⟨d, true⟩ pn =
        ServiceTypes.getServiceDataForProject ⟨d, false⟩ pn ∧
    ServiceTypes.getAllServiceDataForProject ⟨d, true⟩ pn =
        ServiceTypes.getAllServiceDataForProject ⟨d, false⟩ pn := by
  refine ⟨getServiceType_warn d true st p, rfl, getServiceData_warn d true st,
    rfl, rfl, rfl, rfl, ?_, ?_, ?_, rfl, ?_⟩
  · dsimp only [ServiceTypes.isMatch]
    rw [getServiceType_warn]
    rfl
  · dsimp only [ServiceTypes.getAllTypes]
    rw [getServiceType_warn]
    rfl
  · dsimp only [ServiceTypes.getProjectName]
    rw [getServiceData_warn]
  · dsimp only [ServiceTypes.getAllServiceDataForProject]
    simp only [getServiceData_warn]

/-- C7: constructing with `only_remote=True` and no session raises
`ValueError` at once (no fetch is even representable without a session);
with no session and `only_remote=False` construction always succeeds and
the active dataset is the builtin snapshot. -/
theorem c7_no_session_construction (w : Bool) (b : ServiceTypesData) :
    mkServiceTypes none true w b = Except.error ConstructError.valueError ∧
    mkServiceTypes none false w b = Except.ok { data := b, warn := w } :=
  ⟨rfl, rfl⟩

/-- C8: with a session whose single fetch fails with a transport error,
construction under `only_remote=False` succeeds silently with the builtin
snapshot as the active dataset, while under `only_remote=True` the failure
propagates to the caller and no fallback occurs. -/
theorem c8_fetch_failure_fallback (w : Bool) (b : ServiceTypesData) :
    mkServiceTypes (some Fetch.failure) false w b =
        Except.ok { data := b, warn := w } ∧
    mkServiceTypes (some Fetch.failure) true w b =
        Except.error ConstructError.osError :=
  ⟨rfl, rfl⟩

/-- C9: `is_match` never normalizes its `requested` argument.  On
`sampleR`, the official type `"block-storage"` has the hyphenated alias
`"volume-v2"`; the identifier `"volume_v2"` normalizes to that alias yet
differs from it, and `is_match("volume_v2", "block-storage")` is `false`
while `is_match("block-storage", "volume_v2")` is `true` — matching is not
invariant under normalization of the requested side. -/
theorem c9_requested_side_not_normalized :
    normalizeType (some "volume_v2") = some "volume-v2" ∧
    "volume_v2" ≠ "volume-v2" ∧
    sampleR.isOfficial (some "block-storage") = true ∧
    dictGet sampleData.forward "block-storage" =
      some ["volume-v2", "volume-v3"] ∧
    sampleR.isMatch "volume_v2" "block-storage" = false ∧
    sampleR.isMatch "block-storage" "volume_v2" = true := by
  decide

/-- C10: `get_aliases` does not resolve aliases: whenever the normalized
input is a key of `reverse` but not a key of `forward`, the result is the
empty list, not the alias list of the official type the input resolves
to. -/
theorem c10_get_aliases_does_not_resolve (r : ServiceTypes)
    (st : Option String) (t o : String)
    (hn : normalizeType st = some t)
    (hrev : dictGet r.data.reverse t = some o)
    (hfwd : dictGet r.data.forward t = none) :
    r.getAliases st = [] := by
  simp [ServiceTypes.getAliases, hn, hfwd]

/-- C10, witness: on `sampleR`, the alias `"volume_v2"` (normalized to
`"volume-v2"`, a `reverse` key resolving to `"block-storage"`) has an
empty alias list. -/
theorem c10_get_aliases_does_not_resolve_witness :
    sampleR.getAliases (some "volume_v2") = [] :=
  c10_get_aliases_does_not_resolve sampleR (some "volume_v2") "volume-v2"
    "block-storage" (by decide) (by decide) (by decide)

end OsServiceTypes
